import Mathlib

/-!
Verification of the EynatForm serverless HTTP API (src/api).
The repository is a FastAPI application with two endpoints, POST /register and
GET /registrations/{user_email}, backed by pymssql, plus startup configuration
loading from process environment variables. The database driver is modelled as
an explicit behaviour record: each driver call (connect, callproc, commit,
execute/fetchall) either succeeds or raises a pymssql.Error or a generic
Exception carrying a message string.
-/

/-- Outcome of one database-driver call: success, a pymssql.Error carrying a
message, or any other Exception carrying a message. -/
inductive StepResult where
  | ok : StepResult
  | dbErr : String → StepResult
  | otherErr : String → StepResult
deriving DecidableEq, Repr

/-- Replace any error message by the empty string, keeping the outcome shape.
Used to state that responses never depend on raw database error text. -/
def StepResult.scrub : StepResult → StepResult
  | .ok => .ok
  | .dbErr _ => .dbErr ""
  | .otherErr _ => .otherErr ""

/-- Validated request body of POST /register (the pydantic model Registration
in src/api: email is a string, choice is an integer). -/
structure Registration where
  email : String
  choice : Int
deriving DecidableEq, Repr

/-- Behaviour of the database driver during one POST /register request: the
outcome of pymssql.connect, of cursor.callproc on sp_RegisterUser_EynatForm,
whatever result the stored procedure produced (never read by the handler), and
the outcome of conn.commit. -/
structure RegisterDb where
  connect : StepResult
  callproc : StepResult
  procResult : List Int
  commit : StepResult
deriving DecidableEq, Repr

/-- Erase all error messages in a register-request database behaviour. -/
def RegisterDb.scrub (db : RegisterDb) : RegisterDb :=
  ⟨db.connect.scrub, db.callproc.scrub, db.procResult, db.commit.scrub⟩

/-- JSON payload returned on success by POST /register. -/
structure SuccessPayload where
  status : String
  message : String
deriving DecidableEq, Repr

/-- Response of the /register pipeline: the success body, an HTTPException
with a status code and a detail string, or a framework validation rejection
issued before the handler body runs. -/
inductive RegisterResult where
  | ok : SuccessPayload → RegisterResult
  | httpError : Nat → String → RegisterResult
  | validationError : RegisterResult
deriving DecidableEq, Repr

/-- Full record of one execution of the register_user handler: its response,
whether pymssql.connect was invoked, whether conn.commit was invoked, and
whether the commit completed without raising. -/
structure RegisterExec where
  result : RegisterResult
  connectInvoked : Bool
  commitInvoked : Bool
  committed : Bool
deriving DecidableEq, Repr

/-- The POST /register handler body (register_user in src/api): inside try,
connect, then cursor.callproc on sp_RegisterUser_EynatForm with
(email, choice), then conn.commit, then return the success payload whose
message embeds the choice; pymssql.Error maps to HTTPException 500 with detail
"Database operation failed.", any other exception to 500 with detail
"An unexpected server error occurred.". -/
def register_user (r : Registration) (db : RegisterDb) : RegisterExec :=
  match db.connect with
  | .dbErr _ => ⟨.httpError 500 "Database operation failed.", true, false, false⟩
  | .otherErr _ => ⟨.httpError 500 "An unexpected server error occurred.", true, false, false⟩
  | .ok =>
    match db.callproc with
    | .dbErr _ => ⟨.httpError 500 "Database operation failed.", true, false, false⟩
    | .otherErr _ => ⟨.httpError 500 "An unexpected server error occurred.", true, false, false⟩
    | .ok =>
      match db.commit with
      | .dbErr _ => ⟨.httpError 500 "Database operation failed.", true, true, false⟩
      | .otherErr _ => ⟨.httpError 500 "An unexpected server error occurred.", true, true, false⟩
      | .ok =>
        ⟨.ok ⟨"success", "Registered for option " ++ toString r.choice⟩, true, true, true⟩

/-- One row fetched by the lookup query SELECT RegNumber FROM EYNATFORM_ALL;
with as_dict=True each row is a dictionary holding the RegNumber column. -/
structure Row where
  RegNumber : Int
deriving DecidableEq, Repr

/-- Behaviour of the database driver during one GET /registrations request:
the outcome of pymssql.connect, the outcome of cursor.execute plus fetchall,
and the rows fetchall returns (in database order) when it succeeds. -/
structure GetDb where
  connect : StepResult
  query : StepResult
  rows : List Row
deriving DecidableEq, Repr

/-- Erase all error messages in a lookup-request database behaviour. -/
def GetDb.scrub (db : GetDb) : GetDb :=
  ⟨db.connect.scrub, db.query.scrub, db.rows⟩

/-- Response of the /registrations/{user_email} handler: the success body
(the email and the list of registration numbers) or an HTTPException. -/
inductive GetResult where
  | ok : String → List Int → GetResult
  | httpError : Nat → String → GetResult
deriving DecidableEq, Repr

/-- The GET /registrations/{user_email} handler body (get_user_registrations
in src/api): inside try, connect, execute the parameterized select, fetchall,
build the list of RegNumber values in fetched order, and return it with the
email; pymssql.Error maps to HTTPException 500 with detail
"Could not retrieve registration data.", any other exception to 500 with
detail "An unexpected server error occurred.". -/
def get_user_registrations (user_email : String) (db : GetDb) : GetResult :=
  match db.connect with
  | .dbErr _ => .httpError 500 "Could not retrieve registration data."
  | .otherErr _ => .httpError 500 "An unexpected server error occurred."
  | .ok =>
    match db.query with
    | .dbErr _ => .httpError 500 "Could not retrieve registration data."
    | .otherErr _ => .httpError 500 "An unexpected server error occurred."
    | .ok => .ok user_email (db.rows.map Row.RegNumber)

/-- Python truthiness of an optional environment value, as tested by the
startup check not all([DB_SERVER, DB_DATABASE, DB_USER, DB_PASSWORD]):
a missing variable (None) and the empty string are both falsy. -/
def truthy : Option String → Bool
  | none => false
  | some s => s != ""

/-- Result of module import in src/api: the four values read from the
environment, whether logging.critical was emitted, and whether a hard process
exit was performed (the code only logs; it never exits). -/
structure StartupResult where
  DB_SERVER : Option String
  DB_DATABASE : Option String
  DB_USER : Option String
  DB_PASSWORD : Option String
  criticalLogged : Bool
  exited : Bool
deriving DecidableEq, Repr

/-- The configuration loading performed at module import in src/api: the four
os.environ.get reads, followed by the check that logs a critical diagnostic
when not all four values are truthy; no exit call is made. -/
def startup (env : String → Option String) : StartupResult :=
  let s := env "DB_SERVER"
  let d := env "DB_DATABASE"
  let u := env "DB_USER"
  let p := env "DB_PASSWORD"
  ⟨s, d, u, p, !(truthy s && truthy d && truthy u && truthy p), false⟩

/-- Primitive JSON value appearing as a field of a request body object. -/
inductive JsonVal where
  | null : JsonVal
  | str : String → JsonVal
  | num : Int → JsonVal
  | boolean : Bool → JsonVal
deriving DecidableEq, Repr

/-- Modelled from the spec: the pydantic/FastAPI request validation for the
Registration model is performed by the frameworks and is not code under src/;
per the spec, both fields are required and type-checked before any handler
logic runs, so the body must be an object carrying a string field email and an
integer field choice to reach the handler. -/
def parseRegistration (body : List (String × JsonVal)) : Option Registration :=
  match body.lookup "email", body.lookup "choice" with
  | some (.str e), some (.num c) => some ⟨e, c⟩
  | _, _ => none

/-- Modelled from the spec: the full POST /register pipeline; malformed input
is rejected by framework validation before the handler body runs, so the
database driver is never touched on that path. -/
def post_register (body : List (String × JsonVal)) (db : RegisterDb) : RegisterExec :=
  match parseRegistration body with
  | none => ⟨.validationError, false, false, false⟩
  | some r => register_user r db

/-- C1: when connect, the stored-procedure call and commit all succeed, the
/register handler returns the payload with status "success" and message
"Registered for option " followed by the exact integer choice supplied; in
particular choice 3 yields the message "Registered for option 3". -/
theorem c1_register_success_message (r : Registration) (res : List Int) :
    (register_user r ⟨.ok, .ok, res, .ok⟩).result =
      .ok ⟨"success", "Registered for option " ++ toString r.choice⟩ ∧
    (register_user ⟨"a@b.com", 3⟩ ⟨.ok, .ok, [], .ok⟩).result =
      .ok ⟨"success", "Registered for option 3"⟩ := by
  exact ⟨rfl, by decide⟩

/-- C2 counterexample: on a database-layer error the GET handler returns
detail "Could not retrieve registration data.", which is not the POST detail
"Database operation failed." that the claim asserts. -/
theorem c2_counterexample :
    get_user_registrations "a@b.com" ⟨.dbErr "connection refused", .ok, []⟩ =
      .httpError 500 "Could not retrieve registration data." ∧
    "Could not retrieve registration data." ≠ "Database operation failed." := by
  exact ⟨rfl, by decide⟩

/-- C2 amended: for every database-layer error in the GET handler, the
response is a 500 whose detail is "Could not retrieve registration data."
(its own fixed message, not the POST detail "Database operation failed."),
while every other error yields detail "An unexpected server error occurred."
exactly as on POST /register. -/
theorem c2_get_error_details (email msg : String) (q : StepResult) (rows : List Row) :
    get_user_registrations email ⟨.dbErr msg, q, rows⟩ =
      .httpError 500 "Could not retrieve registration data." ∧
    get_user_registrations email ⟨.ok, .dbErr msg, rows⟩ =
      .httpError 500 "Could not retrieve registration data." ∧
    get_user_registrations email ⟨.otherErr msg, q, rows⟩ =
      .httpError 500 "An unexpected server error occurred." ∧
    get_user_registrations email ⟨.ok, .otherErr msg, rows⟩ =
      .httpError 500 "An unexpected server error occurred." := by
  exact ⟨rfl, rfl, rfl, rfl⟩

/-- C3: when the parameterized select succeeds and returns zero rows, the
lookup handler returns the success payload with the email and an empty
registrations list, not an error response. -/
theorem c3_empty_rows_success (email : String) :
    get_user_registrations email ⟨.ok, .ok, []⟩ = .ok email [] := rfl

/-- C4: when the query returns a list of rows, the lookup handler returns
exactly the RegNumber of each row in the order the database returned them, so
the output has one integer per fetched row, with no deduplication and no
re-sorting. -/
theorem c4_rows_passthrough (email : String) (rows : List Row) :
    get_user_registrations email ⟨.ok, .ok, rows⟩ =
      .ok email (rows.map Row.RegNumber) ∧
    (rows.map Row.RegNumber).length = rows.length := by
  exact ⟨rfl, by simp⟩

/-- C5: a pymssql.Error raised at any step of either handler (connect,
stored-procedure call or commit on POST; connect or query on GET) yields a 500
whose detail is that endpoint's fixed database message, any other exception at
any step yields a 500 with detail "An unexpected server error occurred.", and
both handlers are insensitive to the raw error text: their whole execution is
unchanged when every error message is scrubbed to the empty string, so the
response never contains text taken from the raw database error. -/
theorem c5_db_failures_fixed_detail (r : Registration) (msg : String)
    (p m : StepResult) (res : List Int) (db : RegisterDb)
    (email : String) (q : StepResult) (rows : List Row) (g : GetDb) :
    (register_user r ⟨.dbErr msg, p, res, m⟩).result =
      .httpError 500 "Database operation failed." ∧
    (register_user r ⟨.ok, .dbErr msg, res, m⟩).result =
      .httpError 500 "Database operation failed." ∧
    (register_user r ⟨.ok, .ok, res, .dbErr msg⟩).result =
      .httpError 500 "Database operation failed." ∧
    (register_user r ⟨.otherErr msg, p, res, m⟩).result =
      .httpError 500 "An unexpected server error occurred." ∧
    (register_user r ⟨.ok, .otherErr msg, res, m⟩).result =
      .httpError 500 "An unexpected server error occurred." ∧
    (register_user r ⟨.ok, .ok, res, .otherErr msg⟩).result =
      .httpError 500 "An unexpected server error occurred." ∧
    get_user_registrations email ⟨.dbErr msg, q, rows⟩ =
      .httpError 500 "Could not retrieve registration data." ∧
    get_user_registrations email ⟨.ok, .dbErr msg, rows⟩ =
      .httpError 500 "Could not retrieve registration data." ∧
    get_user_registrations email ⟨.otherErr msg, q, rows⟩ =
      .httpError 500 "An unexpected server error occurred." ∧
    get_user_registrations email ⟨.ok, .otherErr msg, rows⟩ =
      .httpError 500 "An unexpected server error occurred." ∧
    register_user r db = register_user r db.scrub ∧
    get_user_registrations email g = get_user_registrations email g.scrub := by
  obtain ⟨c, cp, cres, cm⟩ := db
  obtain ⟨gc, gq, grows⟩ := g
  refine ⟨rfl, rfl, rfl, rfl, rfl, rfl, rfl, rfl, rfl, rfl, ?_, ?_⟩
  · cases c <;> cases cp <;> cases cm <;> rfl
  · cases gc <;> cases gq <;> rfl

/-- C6: in the /register handler, the commit completes exactly on the success
path (the transaction is committed if and only if the handler returns the
success payload), and conn.commit is invoked precisely when connect and the
stored-procedure call both returned without raising, so every exception path
leaves the transaction uncommitted. -/
theorem c6_commit_discipline (r : Registration) (db : RegisterDb) :
    ((register_user r db).committed = true ↔
      ∃ p, (register_user r db).result = .ok p) ∧
    ((register_user r db).commitInvoked = true ↔
      db.connect = .ok ∧ db.callproc = .ok) := by
  obtain ⟨c, p, res, m⟩ := db
  cases c <;> cases p <;> cases m <;> simp [register_user]

/-- C7: a request body that fails the Registration validation (missing email,
missing choice, or a value of the wrong type) is rejected before the handler
body runs: the pipeline returns the framework validation rejection and
pymssql.connect is never invoked, so no database call is attempted. -/
theorem c7_validation_shields_db (body : List (String × JsonVal)) (db : RegisterDb)
    (h : parseRegistration body = none) :
    post_register body db = ⟨.validationError, false, false, false⟩ := by
  simp [post_register, h]

/-- C7 witness: a body missing the choice field fails validation, and the
pipeline on that body returns the validation rejection with no connect. -/
theorem c7_witness :
    parseRegistration [("email", .str "a@b.com")] = none ∧
    post_register [("email", .str "a@b.com")] ⟨.ok, .ok, [], .ok⟩ =
      ⟨.validationError, false, false, false⟩ :=
  ⟨rfl, c7_validation_shields_db [("email", .str "a@b.com")] ⟨.ok, .ok, [], .ok⟩ rfl⟩

/-- C8: startup reads the four connection parameters from the process
environment, performs no hard exit for any environment, and logs a critical
diagnostic whenever any of the four variables is absent. -/
theorem c8_startup_no_exit (env : String → Option String) :
    (startup env).exited = false ∧
    (startup env).DB_SERVER = env "DB_SERVER" ∧
    (startup env).DB_DATABASE = env "DB_DATABASE" ∧
    (startup env).DB_USER = env "DB_USER" ∧
    (startup env).DB_PASSWORD = env "DB_PASSWORD" ∧
    ((env "DB_SERVER" = none ∨ env "DB_DATABASE" = none ∨
      env "DB_USER" = none ∨ env "DB_PASSWORD" = none) →
      (startup env).criticalLogged = true) := by
  refine ⟨rfl, rfl, rfl, rfl, rfl, fun h => ?_⟩
  rcases h with h | h | h | h <;> simp [startup, truthy, h]

/-- C8 witness: with an empty environment, startup does not exit and the
critical diagnostic is logged. -/
theorem c8_witness :
    (startup (fun _ => none)).exited = false ∧
    (startup (fun _ => none)).criticalLogged = true :=
  ⟨(c8_startup_no_exit (fun _ => none)).1,
   (c8_startup_no_exit (fun _ => none)).2.2.2.2.2 (Or.inl rfl)⟩

/-- C9: the /register response depends only on the choice field and the
database behaviour, not on the email: two requests sharing the same choice
produce identical responses, in particular identical success bodies. -/
theorem c9_response_ignores_email (e₁ e₂ : String) (c : Int) (db : RegisterDb) :
    (register_user ⟨e₁, c⟩ db).result = (register_user ⟨e₂, c⟩ db).result := by
  obtain ⟨cn, p, res, m⟩ := db
  cases cn <;> cases p <;> cases m <;> rfl

/-- C10: the /register handler never inspects the result computed by the
stored procedure: its execution is unchanged under any substitution of that
result, and whenever connect, callproc and commit return without raising it
returns the success payload whatever the procedure produced. -/
theorem c10_proc_result_ignored (r : Registration) (c p m : StepResult)
    (res₁ res₂ : List Int) :
    register_user r ⟨c, p, res₁, m⟩ = register_user r ⟨c, p, res₂, m⟩ ∧
    (register_user r ⟨.ok, .ok, res₁, .ok⟩).result =
      .ok ⟨"success", "Registered for option " ++ toString r.choice⟩ := by
  refine ⟨?_, rfl⟩
  cases c <;> cases p <;> cases m <;> rfl
